import Mathlib

/-!
Verification development for the inventory-hub repository: a shallow
embedding of the group / tag / supply data model and of the operations in
src/src/pages/Groups.tsx, src/src/pages/Supplies.tsx,
src/src/pages/Dashboard.tsx and the Tags page, together with theorems that
settle the specification claims. Numeric columns are embedded as exact
integers; row identifiers and user identifiers are strings; each backend
table is a list of rows.
-/

namespace InventoryHub

/-- Row of the `groups` table (interface Group in Groups.tsx). -/
structure Group where
  id : String
  name : String
  description : String
  created_by : String
  created_at : Int
deriving Repr, DecidableEq

/-- Row of the `user_groups` membership table. -/
structure UserGroup where
  user_id : String
  group_id : String
  role : String
deriving Repr, DecidableEq

/-- Row of the `tags` table (interface Tag in the Tags page). -/
structure Tag where
  id : String
  name : String
  color : String
  group_id : String
  created_by : String
deriving Repr, DecidableEq

/-- Row of the `supplies` table (interface Supply in Supplies.tsx). -/
structure Supply where
  id : String
  name : String
  quantity : Int
  cost : Int
  sale_price : Int
  market_price : Int
  tag_id : Option String
  group_id : String
  created_by : String
  created_at : Int
deriving Repr, DecidableEq

/-- The backend state: the four relations the pages query. -/
structure DB where
  groups : List Group
  user_groups : List UserGroup
  tags : List Tag
  supplies : List Supply
deriving Repr, DecidableEq

/-- calculateProfit from src/src/pages/Supplies.tsx:
`(supply.sale_price - supply.cost) * supply.quantity`. -/
def calculateProfit (supply : Supply) : Int :=
  (supply.sale_price - supply.cost) * supply.quantity

/-- The create-group form state of Groups.tsx. -/
structure GroupForm where
  name : String
  description : String
deriving Repr, DecidableEq

/-- handleSubmit from src/src/pages/Groups.tsx. Two sequential backend
inserts: first the group row, then the creator-admin membership row. Each
insert may fail (`groupInsertOk`, `memberInsertOk` are the outcomes the
backend returns); a failure throws into the catch block, which leaves the
rows written so far in place. Returns whether the whole submit succeeded,
and the resulting backend state. -/
def handleSubmitGroup (db : DB) (form : GroupForm) (uid newGroupId : String) (now : Int)
    (groupInsertOk memberInsertOk : Bool) : Bool × DB :=
  if groupInsertOk = false then (false, db)
  else
    let g : Group :=
      { id := newGroupId, name := form.name, description := form.description,
        created_by := uid, created_at := now }
    let db1 : DB := { db with groups := db.groups ++ [g] }
    if memberInsertOk = false then (false, db1)
    else
      (true, { db1 with
        user_groups := db1.user_groups ++
          [{ user_id := uid, group_id := newGroupId, role := "admin" }] })

/-- The typed failures of the spec error taxonomy. -/
inductive DomainError where
  | ValidationError
  | Forbidden
  | NotFound
  | DuplicateMembership
deriving Repr, DecidableEq

/-- handleDelete from the Tags page: `delete() .eq(id, tagId)`. The call
carries no membership or ownership condition, and a delete matching no
row is reported by the backend as a success, so the requester argument
does not influence the outcome. -/
def handleDeleteTag (db : DB) (tagId requester : String) : Except DomainError DB :=
  Except.ok { db with tags := db.tags.filter (fun t => t.id ≠ tagId) }

/-- The group ids of the memberships of a user, as loadSupplies and
loadStats read them from user_groups. -/
def groupsForUser (db : DB) (uid : String) : List String :=
  (db.user_groups.filter (fun m => m.user_id = uid)).map (fun m => m.group_id)

/-- Newest-created-first order on supplies, the order of the
loadSupplies query (created_at descending). -/
def newestFirst (a b : Supply) : Prop := b.created_at ≤ a.created_at

instance : DecidableRel newestFirst :=
  fun a b => inferInstanceAs (Decidable (b.created_at ≤ a.created_at))

instance : IsTotal Supply newestFirst :=
  ⟨fun a b => le_total b.created_at a.created_at⟩

instance : IsTrans Supply newestFirst :=
  ⟨fun _ _ _ h1 h2 => le_trans h2 h1⟩

/-- loadSupplies from src/src/pages/Supplies.tsx: read the group ids of
the caller from user_groups; when there are none, return early leaving
the initial empty list; otherwise select the supplies of those groups
ordered newest-created-first. -/
def loadSupplies (db : DB) (uid : String) : List Supply :=
  let groupIds := groupsForUser db uid
  if groupIds.length = 0 then []
  else
    List.insertionSort newestFirst (db.supplies.filter (fun s => groupIds.contains s.group_id))

/-- The supply form state of Supplies.tsx (formData): the tag selection
is a plain string, the empty string standing for no selection. -/
structure SupplyFormData where
  name : String
  quantity : Int
  cost : Int
  sale_price : Int
  market_price : Int
  tag_id : String
  group_id : String
deriving Repr, DecidableEq

/-- The JavaScript expression `formData.tag_id || null`: the empty
string is falsy, so it becomes null; any other string passes through. -/
def tagIdOrNull (t : String) : Option String :=
  if t = "" then none else some t

/-- The update payload built by handleSubmit in Supplies.tsx when
editingId is set: exactly these seven columns. -/
structure SupplyUpdatePayload where
  name : String
  quantity : Int
  cost : Int
  sale_price : Int
  market_price : Int
  tag_id : Option String
  group_id : String
deriving Repr, DecidableEq

def updatePayload (f : SupplyFormData) : SupplyUpdatePayload :=
  { name := f.name, quantity := f.quantity, cost := f.cost,
    sale_price := f.sale_price, market_price := f.market_price,
    tag_id := tagIdOrNull f.tag_id, group_id := f.group_id }

/-- The row built by the insert branch of handleSubmit: the update
columns plus created_by, with the backend assigning id and created_at. -/
def insertSupplyRow (f : SupplyFormData) (uid newId : String) (now : Int) : Supply :=
  { id := newId, name := f.name, quantity := f.quantity, cost := f.cost,
    sale_price := f.sale_price, market_price := f.market_price,
    tag_id := tagIdOrNull f.tag_id, group_id := f.group_id,
    created_by := uid, created_at := now }

/-- Applying the update payload to a matching supplies row: the seven
payload columns are overwritten, every other column keeps its value. -/
def applyUpdatePayload (s : Supply) (p : SupplyUpdatePayload) : Supply :=
  { s with
    name := p.name, quantity := p.quantity, cost := p.cost,
    sale_price := p.sale_price, market_price := p.market_price,
    tag_id := p.tag_id, group_id := p.group_id }

/-- The update branch of handleSubmit in Supplies.tsx:
`update(payload) .eq(id, editingId)` overwrites the payload columns of
every supplies row whose id matches and leaves other rows unchanged. -/
def handleSubmitUpdateSupply (db : DB) (editingId : String) (f : SupplyFormData) : DB :=
  { db with
    supplies := db.supplies.map
      (fun s => if s.id = editingId then applyUpdatePayload s (updatePayload f) else s) }

/-- The create branch of handleSubmit in Supplies.tsx: insert the new
supplies row. -/
def handleSubmitCreateSupply (db : DB) (f : SupplyFormData) (uid newId : String) (now : Int) : DB :=
  { db with supplies := db.supplies ++ [insertSupplyRow f uid newId now] }

/-- isMember of the Membership Store, as the pages realize it: some
user_groups row links the user to the group. -/
def isMember (db : DB) (groupId userId : String) : Bool :=
  db.user_groups.any (fun m => m.group_id = groupId && m.user_id = userId)

/-- The Stats record of Dashboard.tsx, starting from all zeroes. -/
structure Stats where
  totalSupplies : Nat
  totalGroups : Nat
  totalTags : Nat
  totalProfit : Int
deriving Repr, DecidableEq

/-- loadStats from src/src/pages/Dashboard.tsx: read the group ids of
the user from user_groups; with none, return early keeping the initial
all-zero stats; otherwise count the supplies of those groups and sum
their per-row profit, count the groups rows with those ids, and count
the tags rows of those groups. -/
def loadStats (db : DB) (uid : String) : Stats :=
  let groupIds := groupsForUser db uid
  if groupIds.length = 0 then
    { totalSupplies := 0, totalGroups := 0, totalTags := 0, totalProfit := 0 }
  else
    let supplies := db.supplies.filter (fun s => groupIds.contains s.group_id)
    let totalProfit :=
      supplies.foldl (fun sum s => sum + (s.sale_price - s.cost) * s.quantity) 0
    { totalSupplies := supplies.length,
      totalGroups := (db.groups.filter (fun g => groupIds.contains g.id)).length,
      totalTags := (db.tags.filter (fun t => groupIds.contains t.group_id)).length,
      totalProfit := totalProfit }

/-- Modelled from the spec: deleteGroup of the Inventory Domain Service.
The client handleDelete in Groups.tsx only issues
`delete() .eq(id, groupId)`; the creator-only rule and the cascade to
tags, supplies and memberships are enforced by the backend row-level
security and cascading foreign keys, which are not among the sources.
Per the spec, deleteGroup fails with Forbidden unless the requester is
the created_by of the group, and on success removes the group together
with all its tags, supplies and memberships. -/
def deleteGroup (db : DB) (groupId requester : String) : Except DomainError DB :=
  match db.groups.find? (fun g => g.id = groupId) with
  | none => Except.error DomainError.NotFound
  | some g =>
    if requester = g.created_by then
      Except.ok
        { groups := db.groups.filter (fun g2 => g2.id ≠ groupId),
          user_groups := db.user_groups.filter (fun m => m.group_id ≠ groupId),
          tags := db.tags.filter (fun t => t.group_id ≠ groupId),
          supplies := db.supplies.filter (fun s => s.group_id ≠ groupId) }
    else Except.error DomainError.Forbidden

/-- Modelled from the spec: the Supply Ledger validation shared by
createSupply and updateSupply. The client handleSubmit in Supplies.tsx
submits the form directly; the checks (name non-empty; quantity, cost,
sale_price and market_price non-negative; group exists and the actor is
a member; a present tag belongs to the same group) are enforced by the
backend constraints and row-level security, which are not among the
sources. The checks are applied in the order the spec lists them, a
membership violation being reported as Forbidden per the facade
contract. -/
def validateSupplyFields (db : DB) (f : SupplyUpdatePayload) (actor : String) :
    Option DomainError :=
  if f.name = "" then some DomainError.ValidationError
  else if f.quantity < 0 ∨ f.cost < 0 ∨ f.sale_price < 0 ∨ f.market_price < 0 then
    some DomainError.ValidationError
  else if ∃ g ∈ db.groups, g.id = f.group_id then
    if isMember db f.group_id actor then
      match f.tag_id with
      | none => none
      | some tid =>
        match db.tags.find? (fun t2 => t2.id = tid) with
        | none => some DomainError.ValidationError
        | some t =>
          if t.group_id = f.group_id then none else some DomainError.ValidationError
    else some DomainError.Forbidden
  else some DomainError.ValidationError

/-- Modelled from the spec: createSupply of the Supply Ledger —
validate the fields, then insert the new supply row. -/
def createSupply (db : DB) (f : SupplyUpdatePayload) (creator newId : String) (now : Int) :
    Except DomainError DB :=
  match validateSupplyFields db f creator with
  | some e => Except.error e
  | none =>
    Except.ok { db with
      supplies := db.supplies ++
        [{ id := newId, name := f.name, quantity := f.quantity, cost := f.cost,
           sale_price := f.sale_price, market_price := f.market_price,
           tag_id := f.tag_id, group_id := f.group_id,
           created_by := creator, created_at := now }] }

/-- Modelled from the spec: updateSupply of the Supply Ledger —
NotFound when the id is absent, then the same validation as
createSupply, then overwrite the payload columns of the matching row. -/
def updateSupply (db : DB) (id : String) (f : SupplyUpdatePayload) (requester : String) :
    Except DomainError DB :=
  if db.supplies.any (fun s => s.id = id) then
    match validateSupplyFields db f requester with
    | some e => Except.error e
    | none =>
      Except.ok { db with
        supplies := db.supplies.map (fun s => if s.id = id then applyUpdatePayload s f else s) }
  else Except.error DomainError.NotFound

/-- C2: profit is exactly `(sale_price - cost) * quantity`, the market
price does not enter the computation, and the result is negative whenever
the unit cost exceeds the sale price and the quantity is positive. -/
theorem calculateProfit_spec (s : Supply) :
    calculateProfit s = (s.sale_price - s.cost) * s.quantity ∧
    (∀ m : Int, calculateProfit { s with market_price := m } = calculateProfit s) ∧
    (s.sale_price < s.cost → 0 < s.quantity → calculateProfit s < 0) := by
  refine ⟨rfl, fun _ => rfl, fun hc hq => ?_⟩
  exact mul_neg_of_neg_of_pos (sub_neg.mpr hc) hq

/-- Witness for C2 at the loss-making supply of the spec example
(cost 5, sale price 3, quantity 4). -/
theorem calculateProfit_spec_witness :
    calculateProfit ⟨"s2", "tornillos", 4, 5, 3, 6, none, "g1", "u1", 1⟩ < 0 :=
  (calculateProfit_spec ⟨"s2", "tornillos", 4, 5, 3, 6, none, "g1", "u1", 1⟩).2.2
    (by decide) (by decide)

/-- C1 counterexample: an execution of handleSubmitGroup in which the
group insert succeeds and the membership insert fails leaves the group
observable with no admin membership for the creator, so group and
membership creation are not atomic. -/
theorem createGroup_atomicity_counterexample :
    ((handleSubmitGroup ⟨[], [], [], []⟩ ⟨"taller", "d"⟩ "u1" "g1" 0 true false).2.groups.any
        (fun g => g.id = "g1") = true) ∧
    ((handleSubmitGroup ⟨[], [], [], []⟩ ⟨"taller", "d"⟩ "u1" "g1" 0 true false).2.user_groups.any
        (fun m => m.user_id = "u1" && m.group_id = "g1") = false) := by
  decide

/-- C1 (amended): handleSubmitGroup performs the group insert and the
creator-admin membership insert as two sequential steps; whenever the
whole submit reports success, the created group and an admin membership
for the creator are both present in the resulting state. -/
theorem createGroup_success_creates_admin_membership
    (db : DB) (form : GroupForm) (uid gid : String) (now : Int) (gOk mOk : Bool)
    (h : (handleSubmitGroup db form uid gid now gOk mOk).1 = true) :
    (∃ g ∈ (handleSubmitGroup db form uid gid now gOk mOk).2.groups,
        g.id = gid ∧ g.created_by = uid) ∧
    (∃ m ∈ (handleSubmitGroup db form uid gid now gOk mOk).2.user_groups,
        m.user_id = uid ∧ m.group_id = gid ∧ m.role = "admin") := by
  cases gOk with
  | false => simp [handleSubmitGroup] at h
  | true =>
    cases mOk with
    | false => simp [handleSubmitGroup] at h
    | true =>
      constructor
      · exact ⟨{ id := gid, name := form.name, description := form.description,
                 created_by := uid, created_at := now },
               by simp [handleSubmitGroup], rfl, rfl⟩
      · exact ⟨{ user_id := uid, group_id := gid, role := "admin" },
               by simp [handleSubmitGroup], rfl, rfl, rfl⟩

/-- Witness for C1 (amended) on a successful run from the empty state. -/
theorem createGroup_success_witness :
    (∃ g ∈ (handleSubmitGroup ⟨[], [], [], []⟩ ⟨"taller", "d"⟩ "u1" "g1" 0 true true).2.groups,
        g.id = "g1" ∧ g.created_by = "u1") ∧
    (∃ m ∈ (handleSubmitGroup ⟨[], [], [], []⟩ ⟨"taller", "d"⟩ "u1" "g1" 0 true true).2.user_groups,
        m.user_id = "u1" ∧ m.group_id = "g1" ∧ m.role = "admin") :=
  createGroup_success_creates_admin_membership ⟨[], [], [], []⟩ ⟨"taller", "d"⟩ "u1" "g1" 0
    true true (by decide)

/-- C7 counterexample: deleting an absent tag does not fail with
NotFound — on a state with no tags at all, handleDeleteTag reports
success and leaves the state unchanged. -/
theorem deleteTag_notFound_counterexample :
    handleDeleteTag ⟨[], [], [], []⟩ "t1" "u1" ≠ Except.error DomainError.NotFound ∧
    handleDeleteTag ⟨[], [], [], []⟩ "t1" "u1" = Except.ok ⟨[], [], [], []⟩ :=
  ⟨fun h => Except.noConfusion h, rfl⟩

/-- C7 (amended): handleDeleteTag always succeeds, removing exactly the
tags whose id matches and touching nothing else, and the identity of the
requester does not influence the outcome at all — in particular every
member of a group may delete any tag of that group, whoever created it,
and so may every non-member. -/
theorem deleteTag_unrestricted (db : DB) (tagId requester : String) :
    (∃ db2, handleDeleteTag db tagId requester = Except.ok db2 ∧
      (∀ t ∈ db2.tags, t.id ≠ tagId) ∧
      (∀ t ∈ db.tags, t.id ≠ tagId → t ∈ db2.tags) ∧
      db2.groups = db.groups ∧ db2.user_groups = db.user_groups ∧
      db2.supplies = db.supplies) ∧
    (∀ requester2, handleDeleteTag db tagId requester2 =
      handleDeleteTag db tagId requester) := by
  refine ⟨⟨_, rfl, ?_, ?_, rfl, rfl, rfl⟩, fun _ => rfl⟩
  · intro t ht
    have := List.mem_filter.mp ht
    simpa using this.2
  · intro t ht hne
    exact List.mem_filter.mpr ⟨ht, by simpa using hne⟩

/-- Witness for C7 (amended): deleting tag t1 on a two-tag state. -/
theorem deleteTag_unrestricted_witness :
    (∃ db2, handleDeleteTag ⟨[], [], [⟨"t1", "rojo", "#EF4444", "g1", "u1"⟩,
        ⟨"t2", "azul", "#3B82F6", "g1", "u2"⟩], []⟩ "t1" "u9" = Except.ok db2 ∧
      (∀ t ∈ db2.tags, t.id ≠ "t1") ∧
      (∀ t ∈ DB.tags ⟨[], [], [⟨"t1", "rojo", "#EF4444", "g1", "u1"⟩,
          ⟨"t2", "azul", "#3B82F6", "g1", "u2"⟩], []⟩, t.id ≠ "t1" → t ∈ db2.tags) ∧
      db2.groups = [] ∧ db2.user_groups = [] ∧ db2.supplies = []) ∧
    (∀ requester2, handleDeleteTag ⟨[], [], [⟨"t1", "rojo", "#EF4444", "g1", "u1"⟩,
        ⟨"t2", "azul", "#3B82F6", "g1", "u2"⟩], []⟩ "t1" requester2 =
      handleDeleteTag ⟨[], [], [⟨"t1", "rojo", "#EF4444", "g1", "u1"⟩,
        ⟨"t2", "azul", "#3B82F6", "g1", "u2"⟩], []⟩ "t1" "u9") :=
  deleteTag_unrestricted ⟨[], [], [⟨"t1", "rojo", "#EF4444", "g1", "u1"⟩,
    ⟨"t2", "azul", "#3B82F6", "g1", "u2"⟩], []⟩ "t1" "u9"

/-- C8: loadSupplies returns exactly the supplies of the groups the
caller is a member of, and the returned list is ordered
newest-created-first. -/
theorem loadSupplies_spec (db : DB) (uid : String) :
    (∀ s ∈ loadSupplies db uid, (groupsForUser db uid).contains s.group_id = true) ∧
    (∀ s ∈ db.supplies, (groupsForUser db uid).contains s.group_id = true →
      s ∈ loadSupplies db uid) ∧
    List.Sorted newestFirst (loadSupplies db uid) := by
  unfold loadSupplies
  by_cases h : (groupsForUser db uid).length = 0
  · have hnil : groupsForUser db uid = [] := List.length_eq_zero.mp h
    simp only [h, if_pos, hnil]
    refine ⟨by simp, ?_, by simp [List.Sorted]⟩
    intro s _ hc
    simp at hc
  · simp only [h, if_neg, if_false]
    refine ⟨?_, ?_, List.sorted_insertionSort _ _⟩
    · intro s hs
      rw [List.mem_insertionSort] at hs
      exact (List.mem_filter.mp hs).2
    · intro s hs hc
      rw [List.mem_insertionSort]
      exact List.mem_filter.mpr ⟨hs, hc⟩

/-- Witness for C8 on a state with one membership and two supplies, one
of them in a foreign group. -/
theorem loadSupplies_spec_witness :
    List.Sorted newestFirst
      (loadSupplies ⟨[], [⟨"u1", "g1", "admin"⟩], [],
        [⟨"s1", "a", 1, 1, 2, 2, none, "g1", "u1", 5⟩,
         ⟨"s2", "b", 1, 1, 2, 2, none, "g2", "u2", 9⟩]⟩ "u1") :=
  (loadSupplies_spec ⟨[], [⟨"u1", "g1", "admin"⟩], [],
    [⟨"s1", "a", 1, 1, 2, 2, none, "g1", "u1", 5⟩,
     ⟨"s2", "b", 1, 1, 2, 2, none, "g2", "u2", 9⟩]⟩ "u1").2.2

/-- C9: on both the create and the update path the empty-string tag
selection is coerced to null before the row is written, so no written
supply carries an empty-string tag reference. -/
theorem supply_tagId_coercion (f : SupplyFormData) (db : DB)
    (editingId uid newId : String) (now : Int) :
    ((updatePayload f).tag_id ≠ some "" ∧
      (f.tag_id = "" → (updatePayload f).tag_id = none) ∧
      (f.tag_id ≠ "" → (updatePayload f).tag_id = some f.tag_id)) ∧
    ((insertSupplyRow f uid newId now).tag_id ≠ some "" ∧
      (f.tag_id = "" → (insertSupplyRow f uid newId now).tag_id = none)) ∧
    (∀ s ∈ (handleSubmitUpdateSupply db editingId f).supplies,
      s ∈ db.supplies ∨ s.tag_id ≠ some "") := by
  have hcoerce : tagIdOrNull f.tag_id ≠ some "" ∧
      (f.tag_id = "" → tagIdOrNull f.tag_id = none) ∧
      (f.tag_id ≠ "" → tagIdOrNull f.tag_id = some f.tag_id) := by
    unfold tagIdOrNull
    by_cases h : f.tag_id = "" <;> simp [h]
  refine ⟨hcoerce, ⟨hcoerce.1, hcoerce.2.1⟩, ?_⟩
  intro s hs
  simp only [handleSubmitUpdateSupply, List.mem_map] at hs
  obtain ⟨a, ha, rfl⟩ := hs
  by_cases hid : a.id = editingId
  · right
    simp only [hid, if_pos, applyUpdatePayload]
    exact hcoerce.1
  · left
    simpa [hid] using ha

/-- Witness for C9: a form with an empty tag selection yields a null tag
reference in the update payload. -/
theorem supply_tagId_coercion_witness :
    (updatePayload ⟨"clavos", 2, 1, 3, 3, "", "g1"⟩).tag_id = none :=
  (supply_tagId_coercion ⟨"clavos", 2, 1, 3, 3, "", "g1"⟩ ⟨[], [], [], []⟩
    "s1" "u1" "s9" 0).1.2.1 rfl

/-- C10: the update path writes only the seven payload columns — every
row of the resulting supplies table keeps the id, created_by and
created_at of the corresponding original row, rows whose id does not
match are untouched, and the matching rows change only through the
payload. -/
theorem updateSupply_frame (db : DB) (editingId : String) (f : SupplyFormData) :
    List.Forall₂ (fun s s2 =>
        s2.id = s.id ∧ s2.created_by = s.created_by ∧ s2.created_at = s.created_at ∧
        (s.id ≠ editingId → s2 = s) ∧
        (s.id = editingId → s2 = applyUpdatePayload s (updatePayload f)))
      db.supplies (handleSubmitUpdateSupply db editingId f).supplies := by
  have key : ∀ l : List Supply,
      List.Forall₂ (fun s s2 =>
          s2.id = s.id ∧ s2.created_by = s.created_by ∧ s2.created_at = s.created_at ∧
          (s.id ≠ editingId → s2 = s) ∧
          (s.id = editingId → s2 = applyUpdatePayload s (updatePayload f)))
        l (l.map (fun s =>
          if s.id = editingId then applyUpdatePayload s (updatePayload f) else s)) := by
    intro l
    induction l with
    | nil => exact List.Forall₂.nil
    | cons a l2 ih =>
      refine List.Forall₂.cons ?_ ih
      simp only []
      by_cases hid : a.id = editingId
      · rw [if_pos hid]
        exact ⟨rfl, rfl, rfl, fun hne => absurd hid hne, fun _ => rfl⟩
      · rw [if_neg hid]
        exact ⟨rfl, rfl, rfl, fun _ => rfl, fun heq => absurd heq hid⟩
  exact key db.supplies

/-- Witness for C10 on a one-row table whose row is being edited. -/
theorem updateSupply_frame_witness :
    List.Forall₂ (fun s s2 =>
        s2.id = s.id ∧ s2.created_by = s.created_by ∧ s2.created_at = s.created_at ∧
        (s.id ≠ "s1" → s2 = s) ∧
        (s.id = "s1" → s2 = applyUpdatePayload s (updatePayload ⟨"m", 1, 1, 1, 1, "", "g1"⟩)))
      (DB.supplies ⟨[], [], [], [⟨"s1", "a", 1, 1, 2, 2, none, "g1", "u1", 5⟩]⟩)
      (handleSubmitUpdateSupply ⟨[], [], [], [⟨"s1", "a", 1, 1, 2, 2, none, "g1", "u1", 5⟩]⟩
        "s1" ⟨"m", 1, 1, 1, 1, "", "g1"⟩).supplies :=
  updateSupply_frame ⟨[], [], [], [⟨"s1", "a", 1, 1, 2, 2, none, "g1", "u1", 5⟩]⟩ "s1"
    ⟨"m", 1, 1, 1, 1, "", "g1"⟩

/-- Helper: the contains test over the group ids read from user_groups
agrees with isMember. -/
lemma contains_groupsForUser (db : DB) (uid gid : String) :
    (groupsForUser db uid).contains gid = isMember db gid uid := by
  rw [Bool.eq_iff_iff]
  simp only [groupsForUser, isMember, List.contains_iff_exists_mem_beq, List.any_eq_true,
    List.mem_map, List.mem_filter, beq_iff_eq, Bool.and_eq_true, decide_eq_true_eq]
  constructor
  · rintro ⟨x, ⟨m, ⟨hm, hu⟩, hg⟩, he⟩
    exact ⟨m, hm, hg.trans he.symm, hu⟩
  · rintro ⟨m, hm, hg, hu⟩
    exact ⟨gid, ⟨m, ⟨hm, hu⟩, hg⟩, rfl⟩

/-- Helper: the profit fold of loadStats is the sum of the per-row
profits. -/
lemma foldl_profit (l : List Supply) (a : Int) :
    l.foldl (fun sum s => sum + (s.sale_price - s.cost) * s.quantity) a =
      a + (l.map calculateProfit).sum := by
  induction l generalizing a with
  | nil => simp
  | cons s l2 ih =>
    simp only [List.foldl_cons, List.map_cons, List.sum_cons, ih, calculateProfit]
    ring

/-- C3: the dashboard stats of a user are computed over exactly the
groups the user is a member of — the total profit is the sum of the
per-supply profits over the supplies of those groups, and the three
counts are the cardinalities of those supplies, groups and tags; a user
with no memberships gets all-zero stats. -/
theorem dashboardStats_spec (db : DB) (uid : String) :
    (loadStats db uid).totalProfit =
      ((db.supplies.filter (fun s => isMember db s.group_id uid)).map calculateProfit).sum ∧
    (loadStats db uid).totalSupplies =
      (db.supplies.filter (fun s => isMember db s.group_id uid)).length ∧
    (loadStats db uid).totalGroups =
      (db.groups.filter (fun g => isMember db g.id uid)).length ∧
    (loadStats db uid).totalTags =
      (db.tags.filter (fun t => isMember db t.group_id uid)).length ∧
    (groupsForUser db uid = [] → loadStats db uid = ⟨0, 0, 0, 0⟩) := by
  by_cases h : (groupsForUser db uid).length = 0
  · have hnil : groupsForUser db uid = [] := List.length_eq_zero.mp h
    have hmem : ∀ gid, isMember db gid uid = false := by
      intro gid
      rw [← contains_groupsForUser, hnil]
      rfl
    simp [loadStats, h, hmem]
  · have hc : ∀ gid, (groupsForUser db uid).contains gid = isMember db gid uid :=
      contains_groupsForUser db uid
    refine ⟨?_, ?_, ?_, ?_, ?_⟩
    · show (loadStats db uid).totalProfit = _
      simp only [loadStats, if_neg h, hc]
      rw [foldl_profit]
      simp
    · simp only [loadStats, if_neg h, hc]
    · simp only [loadStats, if_neg h, hc]
    · simp only [loadStats, if_neg h, hc]
    · intro hnil
      exact absurd (by rw [hnil]; rfl) h

/-- Witness for C3: a user with no memberships gets all-zero stats. -/
theorem dashboardStats_spec_witness :
    loadStats ⟨[⟨"g1", "n", "", "u2", 0⟩], [⟨"u2", "g1", "admin"⟩], [],
      [⟨"s1", "a", 1, 1, 2, 2, none, "g1", "u2", 5⟩]⟩ "u1" = ⟨0, 0, 0, 0⟩ :=
  (dashboardStats_spec ⟨[⟨"g1", "n", "", "u2", 0⟩], [⟨"u2", "g1", "admin"⟩], [],
    [⟨"s1", "a", 1, 1, 2, 2, none, "g1", "u2", 5⟩]⟩ "u1").2.2.2.2 (by decide)

/-- C4: deleteGroup fails with Forbidden for every requester other than
the created_by of the group; invoked by the creator it removes the
group together with all its tags, supplies and memberships, none of
which remain queryable afterwards. -/
theorem deleteGroup_spec (db : DB) (groupId requester : String) (g : Group)
    (hfind : db.groups.find? (fun g2 => g2.id = groupId) = some g) :
    (requester ≠ g.created_by →
      deleteGroup db groupId requester = Except.error DomainError.Forbidden) ∧
    (requester = g.created_by →
      ∃ db2, deleteGroup db groupId requester = Except.ok db2 ∧
        (∀ g2 ∈ db2.groups, g2.id ≠ groupId) ∧
        (∀ t ∈ db2.tags, t.group_id ≠ groupId) ∧
        (∀ s ∈ db2.supplies, s.group_id ≠ groupId) ∧
        (∀ m ∈ db2.user_groups, m.group_id ≠ groupId)) := by
  constructor
  · intro hne
    simp [deleteGroup, hfind, hne]
  · intro heq
    have hok : deleteGroup db groupId requester = Except.ok
        { groups := db.groups.filter (fun g2 => g2.id ≠ groupId),
          user_groups := db.user_groups.filter (fun m => m.group_id ≠ groupId),
          tags := db.tags.filter (fun t => t.group_id ≠ groupId),
          supplies := db.supplies.filter (fun s => s.group_id ≠ groupId) } := by
      simp [deleteGroup, hfind, heq]
    refine ⟨_, hok, ?_, ?_, ?_, ?_⟩ <;>
      exact fun x hx => by simpa using (List.mem_filter.mp hx).2

/-- Witness for C4 on a state with one group, one tag, one supply and
one membership: the non-creator u2 is refused, the creator u1 deletes
everything. -/
theorem deleteGroup_spec_witness :
    (deleteGroup ⟨[⟨"g1", "taller", "", "u1", 0⟩], [⟨"u1", "g1", "admin"⟩],
        [⟨"t1", "rojo", "#EF4444", "g1", "u1"⟩],
        [⟨"s1", "a", 1, 1, 2, 2, some "t1", "g1", "u1", 3⟩]⟩ "g1" "u2" =
      Except.error DomainError.Forbidden) ∧
    (∃ db2, deleteGroup ⟨[⟨"g1", "taller", "", "u1", 0⟩], [⟨"u1", "g1", "admin"⟩],
        [⟨"t1", "rojo", "#EF4444", "g1", "u1"⟩],
        [⟨"s1", "a", 1, 1, 2, 2, some "t1", "g1", "u1", 3⟩]⟩ "g1" "u1" = Except.ok db2 ∧
      (∀ g2 ∈ db2.groups, g2.id ≠ "g1") ∧
      (∀ t ∈ db2.tags, t.group_id ≠ "g1") ∧
      (∀ s ∈ db2.supplies, s.group_id ≠ "g1") ∧
      (∀ m ∈ db2.user_groups, m.group_id ≠ "g1")) :=
  ⟨(deleteGroup_spec ⟨[⟨"g1", "taller", "", "u1", 0⟩], [⟨"u1", "g1", "admin"⟩],
      [⟨"t1", "rojo", "#EF4444", "g1", "u1"⟩],
      [⟨"s1", "a", 1, 1, 2, 2, some "t1", "g1", "u1", 3⟩]⟩ "g1" "u2"
      ⟨"g1", "taller", "", "u1", 0⟩ (by decide)).1 (by decide),
   (deleteGroup_spec ⟨[⟨"g1", "taller", "", "u1", 0⟩], [⟨"u1", "g1", "admin"⟩],
      [⟨"t1", "rojo", "#EF4444", "g1", "u1"⟩],
      [⟨"s1", "a", 1, 1, 2, 2, some "t1", "g1", "u1", 3⟩]⟩ "g1" "u1"
      ⟨"g1", "taller", "", "u1", 0⟩ (by decide)).2 (by decide)⟩

/-- C5: a supply whose tag belongs to a different group than the supply
is rejected with ValidationError, on creation and on update alike, for
fields that pass every other check. -/
theorem createSupply_crossGroupTag_spec (db : DB) (f : SupplyUpdatePayload)
    (creator newId : String) (now : Int) (tid : String) (t : Tag)
    (hname : f.name ≠ "")
    (hq : 0 ≤ f.quantity) (hco : 0 ≤ f.cost) (hsp : 0 ≤ f.sale_price)
    (hmp : 0 ≤ f.market_price)
    (hgroup : ∃ g ∈ db.groups, g.id = f.group_id)
    (hmem : isMember db f.group_id creator = true)
    (htag : f.tag_id = some tid)
    (hfind : db.tags.find? (fun t2 => t2.id = tid) = some t)
    (hcross : t.group_id ≠ f.group_id) :
    createSupply db f creator newId now = Except.error DomainError.ValidationError ∧
    (∀ id, db.supplies.any (fun s => s.id = id) = true →
      updateSupply db id f creator = Except.error DomainError.ValidationError) := by
  have hnn : ¬(f.quantity < 0 ∨ f.cost < 0 ∨ f.sale_price < 0 ∨ f.market_price < 0) := by
    push_neg
    exact ⟨hq, hco, hsp, hmp⟩
  have hval : validateSupplyFields db f creator = some DomainError.ValidationError := by
    simp only [validateSupplyFields, if_neg hname, if_neg hnn, if_pos hgroup, hmem,
      ite_true, htag, hfind, if_neg hcross]
  exact ⟨by simp [createSupply, hval], fun id hid => by simp [updateSupply, hid, hval]⟩

/-- Witness for C5: tag t2 lives in group g2, the supply targets group
g1; creation and update are both rejected. -/
theorem createSupply_crossGroupTag_witness :
    createSupply ⟨[⟨"g1", "n", "", "u1", 0⟩, ⟨"g2", "m", "", "u2", 0⟩],
        [⟨"u1", "g1", "admin"⟩], [⟨"t2", "x", "#fff", "g2", "u2"⟩],
        [⟨"s1", "a", 1, 1, 1, 1, none, "g1", "u1", 0⟩]⟩
      ⟨"clavos", 1, 1, 1, 1, some "t2", "g1"⟩ "u1" "s9" 7 =
      Except.error DomainError.ValidationError ∧
    updateSupply ⟨[⟨"g1", "n", "", "u1", 0⟩, ⟨"g2", "m", "", "u2", 0⟩],
        [⟨"u1", "g1", "admin"⟩], [⟨"t2", "x", "#fff", "g2", "u2"⟩],
        [⟨"s1", "a", 1, 1, 1, 1, none, "g1", "u1", 0⟩]⟩
      "s1" ⟨"clavos", 1, 1, 1, 1, some "t2", "g1"⟩ "u1" =
      Except.error DomainError.ValidationError :=
  have h := createSupply_crossGroupTag_spec
    ⟨[⟨"g1", "n", "", "u1", 0⟩, ⟨"g2", "m", "", "u2", 0⟩],
      [⟨"u1", "g1", "admin"⟩], [⟨"t2", "x", "#fff", "g2", "u2"⟩],
      [⟨"s1", "a", 1, 1, 1, 1, none, "g1", "u1", 0⟩]⟩
    ⟨"clavos", 1, 1, 1, 1, some "t2", "g1"⟩ "u1" "s9" 7 "t2" ⟨"t2", "x", "#fff", "g2", "u2"⟩
    (by decide) (by decide) (by decide) (by decide) (by decide) (by decide) (by decide) rfl
    (by decide) (by decide)
  ⟨h.1, h.2 "s1" (by decide)⟩

/-- C6: createSupply and updateSupply reject with ValidationError every
input with an empty name or a negative quantity, cost, sale price or
market price; and a creation succeeds only when the target group exists
and the creator is one of its members. -/
theorem createSupply_validation_spec (db : DB) (f : SupplyUpdatePayload)
    (creator newId : String) (now : Int) :
    ((f.name = "" ∨ f.quantity < 0 ∨ f.cost < 0 ∨ f.sale_price < 0 ∨ f.market_price < 0) →
      createSupply db f creator newId now = Except.error DomainError.ValidationError ∧
      (∀ id, db.supplies.any (fun s => s.id = id) = true →
        updateSupply db id f creator = Except.error DomainError.ValidationError)) ∧
    (∀ db2, createSupply db f creator newId now = Except.ok db2 →
      (∃ g ∈ db.groups, g.id = f.group_id) ∧ isMember db f.group_id creator = true) := by
  constructor
  · intro h
    have hval : validateSupplyFields db f creator = some DomainError.ValidationError := by
      unfold validateSupplyFields
      by_cases hn : f.name = ""
      · rw [if_pos hn]
      · rw [if_neg hn, if_pos (h.resolve_left hn)]
    exact ⟨by simp [createSupply, hval], fun id hid => by simp [updateSupply, hid, hval]⟩
  · intro db2 hok
    have hv : validateSupplyFields db f creator = none := by
      cases hval2 : validateSupplyFields db f creator with
      | none => rfl
      | some e => simp [createSupply, hval2] at hok
    unfold validateSupplyFields at hv
    split_ifs at hv <;> first
      | exact Option.noConfusion hv
      | exact ⟨by assumption, by assumption⟩

/-- Witness for C6: the empty-name supply is rejected. -/
theorem createSupply_validation_witness :
    createSupply ⟨[⟨"g1", "n", "", "u1", 0⟩], [⟨"u1", "g1", "admin"⟩], [], []⟩
      ⟨"", 1, 1, 1, 1, none, "g1"⟩ "u1" "s9" 0 =
      Except.error DomainError.ValidationError :=
  ((createSupply_validation_spec ⟨[⟨"g1", "n", "", "u1", 0⟩], [⟨"u1", "g1", "admin"⟩], [], []⟩
      ⟨"", 1, 1, 1, 1, none, "g1"⟩ "u1" "s9" 0).1 (Or.inl rfl)).1

end InventoryHub
